import Mathlib

/-!
# gitterm terminal server: wire protocol and session state

A shallow embedding of `.docker/custom/server.h`: the message tag constants and
the `pss_tty` / `server` records, followed by the protocol operations that act on
them, and the properties established for them.

Bytes are natural numbers below 256.  A C character constant such as `'0'` is
an `int` holding the character code, so each tag is the code of its character.
-/

namespace GitTerm

/-! ## Message tags (server.h, lines 7-17) -/

/-- Client message `INPUT`: `#define INPUT '0'`. -/
def INPUT : Nat := '0'.toNat

/-- Client message `RESIZE_TERMINAL`: `#define RESIZE_TERMINAL '1'`. -/
def RESIZE_TERMINAL : Nat := '1'.toNat

/-- Client message `PAUSE`: `#define PAUSE '2'`. -/
def PAUSE : Nat := '2'.toNat

/-- Client message `RESUME`: `#define RESUME '3'`. -/
def RESUME : Nat := '3'.toNat

/-- Client message `JSON_DATA`: `#define JSON_DATA '{'`. -/
def JSON_DATA : Nat := '{'.toNat

/-- Server message `OUTPUT`: `#define OUTPUT '0'`. -/
def OUTPUT : Nat := '0'.toNat

/-- Server message `SET_WINDOW_TITLE`: `#define SET_WINDOW_TITLE '1'`. -/
def SET_WINDOW_TITLE : Nat := '1'.toNat

/-- Server message `SET_PREFERENCES`: `#define SET_PREFERENCES '2'`. -/
def SET_PREFERENCES : Nat := '2'.toNat

/-- The tags under the `// client message` heading, in source order. -/
def client_tags : List Nat := [INPUT, RESIZE_TERMINAL, PAUSE, RESUME, JSON_DATA]

/-- The tags under the `// server message` heading, in source order. -/
def server_tags : List Nat := [OUTPUT, SET_WINDOW_TITLE, SET_PREFERENCES]

/-- Conversion of an `int` to an 8-bit `char`: the value modulo 256. -/
def to_char8 (v : Nat) : Nat := v % 256

/-- The value is a single byte: it lies in 0..127, survives conversion to an 8-bit
`char`, and is the code of a character that takes one byte in UTF-8. -/
def single_byte (v : Nat) : Prop :=
  0 ≤ v ∧ v ≤ 127 ∧ to_char8 v = v ∧ (Char.ofNat v).utf8Size = 1

/-! ## Records (server.h) -/

/-- Modelled from the spec: `pty.h` (the type `pty_process`) is not among the
sources.  The pty process of §4.2 as the bridge observes it: the bytes written to
the pty so far, the terminal size last set, and whether the process has exited. -/
structure pty_process where
  input : List Nat
  columns : Nat
  rows : Nat
  exited : Bool
deriving DecidableEq, Repr

/-- `struct pss_tty` (server.h, lines 48-66).  `wsi` is the websocket, held as
the frames written to it so far; `pty_buf` is the pending pty output, held as the
chunks not yet framed. -/
structure pss_tty where
  initialized : Bool
  initial_cmd_index : Int
  authenticated : Bool
  user : String
  address : String
  path : String
  args : List String
  argc : Int
  wsi : List (List Nat)
  buffer : List Nat
  len : Nat
  process : Option pty_process
  pty_buf : List (List Nat)
  lws_close_status : Int
deriving DecidableEq, Repr

/-- `struct server` (server.h, lines 73-95). -/
structure server where
  client_count : Int
  prefs_json : String
  credential : Option String
  auth_header : Option String
  index : Option String
  command : String
  argv : List String
  argc : Int
  cwd : Option String
  sig_code : Int
  sig_name : String
  url_arg : Bool
  writable : Bool
  check_origin : Bool
  max_clients : Int
  once : Bool
  exit_no_conn : Bool
  socket_path : String
  terminal_type : String
  loop : Unit
deriving DecidableEq, Repr

/-! ## Protocol operations

The functions that act on these records are not in `server.h`; they follow the
specification of the protocol state machine. -/

/-- Modelled from the spec: the error kinds of §7 (the code raising them is not
among the sources). -/
inductive ErrorKind where
  | AuthFailure
  | CapacityExceeded
  | ProtocolViolation
  | SpawnFailure
  | WriteFailure
  | ProcessExited
deriving DecidableEq, Repr

/-- Modelled from the spec: the `ClientCommand` variants of §4.1 (the decoder is
not among the sources). -/
inductive ClientCommand where
  | Input (bytes : List Nat)
  | ResizeTerminal (columns rows : Nat)
  | Pause
  | Resume
  | PreferencesAck (json : List Nat)
deriving DecidableEq, Repr

/-- Modelled from the spec: the server-to-client messages of §4.1 (the encoder is
not among the sources). -/
inductive ServerMessage where
  | Output (bytes : List Nat)
  | SetWindowTitle (text : List Nat)
  | SetPreferences (json : List Nat)
deriving DecidableEq, Repr

/-- Modelled from the spec: what the specification leaves to collaborators and to
deployment: the close code sent for each error kind, the JSON reader for the
resize payload, and the flow-control water marks (§4.4, §9). -/
structure collaborators where
  close_status : ErrorKind → Int
  parse_resize : List Nat → Option (Nat × Nat)
  high_water : Nat
  low_water : Nat

/-- Modelled from the spec: the framing rule of §4.1 (the decoder is not among
the sources).  The first byte is the tag, the rest is the payload; a message with
no tag, an unrecognized tag or an unreadable resize payload does not decode. -/
def decode (env : collaborators) : List Nat → Option ClientCommand
  | [] => none
  | tag :: payload =>
    if tag = INPUT then some (ClientCommand.Input payload)
    else if tag = RESIZE_TERMINAL then
      (env.parse_resize payload).map fun p => ClientCommand.ResizeTerminal p.1 p.2
    else if tag = PAUSE then some ClientCommand.Pause
    else if tag = RESUME then some ClientCommand.Resume
    else if tag = JSON_DATA then some (ClientCommand.PreferencesAck (tag :: payload))
    else none

/-- Modelled from the spec: the encoding of §4.1 (the encoder is not among the
sources): the tag byte followed by the payload. -/
def encode : ServerMessage → List Nat
  | ServerMessage.Output bytes => OUTPUT :: bytes
  | ServerMessage.SetWindowTitle text => SET_WINDOW_TITLE :: text
  | ServerMessage.SetPreferences json => SET_PREFERENCES :: json

/-- Modelled from the spec: the Connection of §3 (the session code is not among
the sources): the `pss_tty` of the source together with the flow-control state
the specification adds: whether the connection is Paused, the bytes in flight
and the queue of frames waiting for the socket. -/
structure Connection where
  pss : pss_tty
  paused : Bool
  inflightBytes : Nat
  writeQueue : List (List Nat)
deriving DecidableEq, Repr

/-- Modelled from the spec: the result of handling one event on an open
connection (the session code is not among the sources): the connection
afterwards, and the error kind it is being closed with, if any. -/
structure Outcome where
  conn : Connection
  close : Option ErrorKind

/-- The connection stays open. -/
def Outcome.continue (c : Connection) : Outcome :=
  { conn := c, close := none }

/-- Modelled from the spec: closing with an error (§7): the close code of the
error kind is recorded in `lws_close_status` and the connection is handed to
Closing. -/
def close_with (env : collaborators) (c : Connection) (kind : ErrorKind) : Outcome :=
  { conn := { c with pss := { c.pss with lws_close_status := env.close_status kind } },
    close := some kind }

/-- Modelled from the spec: `write` of §4.2 (`pty.h` is not among the sources):
the bytes are appended to what the pty has received. -/
def pty_write (p : pty_process) (bytes : List Nat) : pty_process :=
  { p with input := p.input ++ bytes }

/-- Modelled from the spec: `resize` of §4.2 (`pty.h` is not among the sources):
a no-op once the process has exited. -/
def pty_resize (p : pty_process) (columns rows : Nat) : pty_process :=
  if p.exited then p else { p with columns := columns, rows := rows }

/-- Modelled from the spec: admission of one pty chunk to an Active connection
(§4.4; the flow controller is not among the sources): the chunk is framed as an
OUTPUT message and queued, `inflightBytes` grows by its length, and the
connection is Paused when that exceeds the high-water mark. -/
def accept_chunk (env : collaborators) (c : Connection) (chunk : List Nat) : Connection :=
  { c with
    writeQueue := c.writeQueue ++ [encode (ServerMessage.Output chunk)],
    inflightBytes := c.inflightBytes + chunk.length,
    paused := decide (env.high_water < c.inflightBytes + chunk.length) }

/-- Modelled from the spec: the deferred chunks are admitted in their original
order for as long as the connection is not Paused again; the rest stay deferred. -/
def accept_deferred (env : collaborators) (c : Connection) : List (List Nat) → Connection
  | [] => { c with pss := { c.pss with pty_buf := [] } }
  | chunk :: rest =>
    if c.paused then { c with pss := { c.pss with pty_buf := chunk :: rest } }
    else accept_deferred env (accept_chunk env c chunk) rest

/-- Modelled from the spec: Paused → Active (§4.3; the session code is not among
the sources): the chunks deferred while Paused are delivered in original order. -/
def resume (env : collaborators) (c : Connection) : Connection :=
  accept_deferred env { c with paused := false } c.pss.pty_buf

/-- Modelled from the spec: one chunk read from the pty (§2 data flow, §4.4; the
bridge is not among the sources).  A Paused connection defers it; an Active one
admits it. -/
def on_pty_output (env : collaborators) (c : Connection) (chunk : List Nat) : Connection :=
  if c.paused then { c with pss := { c.pss with pty_buf := c.pss.pty_buf ++ [chunk] } }
  else accept_chunk env c chunk

/-- Modelled from the spec: the transport flushes the frame at the head of the
write queue (§4.4; the bridge is not among the sources): it is written to the
socket, `inflightBytes` drops by its payload length, and a Paused connection
that falls below the low-water mark resumes. -/
def on_writable (env : collaborators) (c : Connection) : Connection :=
  match c.writeQueue with
  | [] => c
  | frame :: queue =>
    let c1 : Connection :=
      { c with
        pss := { c.pss with wsi := c.pss.wsi ++ [frame] },
        writeQueue := queue,
        inflightBytes := c.inflightBytes - (frame.length - 1) }
    if c1.paused && decide (c1.inflightBytes < env.low_water) then resume env c1 else c1

/-- Modelled from the spec: the outcome of the collaborator's credential check on
an Unauthenticated connection (§4.3; the session code is not among the sources). -/
def authenticate (env : collaborators) (c : Connection) (valid : Bool) : Outcome :=
  if valid then Outcome.continue { c with pss := { c.pss with authenticated := true } }
  else close_with env c ErrorKind.AuthFailure

/-- Modelled from the spec: dispatch of one decoded command (§2, §4.1-§4.3; the
router is not among the sources). -/
def dispatch (env : collaborators) (srv : server) (c : Connection) : ClientCommand → Outcome
  | ClientCommand.Input bytes =>
    if srv.writable then
      match c.pss.process with
      | none => Outcome.continue c
      | some p =>
        if p.exited then close_with env c ErrorKind.ProcessExited
        else Outcome.continue { c with pss := { c.pss with process := some (pty_write p bytes) } }
    else Outcome.continue c
  | ClientCommand.ResizeTerminal columns rows =>
    match c.pss.process with
    | none => Outcome.continue c
    | some p =>
      Outcome.continue { c with pss := { c.pss with process := some (pty_resize p columns rows) } }
  | ClientCommand.Pause => Outcome.continue { c with paused := true }
  | ClientCommand.Resume => Outcome.continue (resume env c)
  | ClientCommand.PreferencesAck _ => Outcome.continue c

/-- Modelled from the spec: handling of one incoming client message on an open
connection (§4.1, §4.3, §7; the session code is not among the sources).  The
message is decoded; one that does not decode is a protocol violation; a command
from a connection that has not passed the authentication gate is an
authentication failure; any other command is dispatched. -/
def handle_message (env : collaborators) (srv : server) (c : Connection)
    (msg : List Nat) : Outcome :=
  match decode env msg with
  | none => close_with env c ErrorKind.ProtocolViolation
  | some cmd =>
    if c.pss.authenticated then dispatch env srv c cmd
    else close_with env c ErrorKind.AuthFailure

/-- The bytes the pty of a connection has received from clients. -/
def pty_input (c : Connection) : List Nat :=
  match c.pss.process with
  | none => []
  | some p => p.input

/-! ## The output path of one connection -/

/-- Modelled from the spec: the events of the output path of one connection
(§2 data flow; the bridge is not among the sources): the pty produces a chunk, or
the transport is ready to flush a frame. -/
inductive io_event where
  | chunk (bytes : List Nat)
  | writable
deriving DecidableEq, Repr

/-- One event of the output path. -/
def io_step (env : collaborators) (c : Connection) : io_event → Connection
  | io_event.chunk bytes => on_pty_output env c bytes
  | io_event.writable => on_writable env c

/-- The events of the output path applied in order. -/
def io_run (env : collaborators) (c : Connection) : List io_event → Connection
  | [] => c
  | e :: es => io_run env (io_step env c e) es

/-- The connection is not Paused before, between or after the events. -/
def never_paused (env : collaborators) (c : Connection) : List io_event → Prop
  | [] => c.paused = false
  | e :: es => c.paused = false ∧ never_paused env (io_step env c e) es

/-- The chunks the pty produced during the events, in order. -/
def chunks_of : List io_event → List (List Nat)
  | [] => []
  | io_event.chunk bytes :: es => bytes :: chunks_of es
  | io_event.writable :: es => chunks_of es

/-- The transport flushes `n` more times. -/
def flush (env : collaborators) (c : Connection) : Nat → Connection
  | 0 => c
  | n + 1 => flush env (on_writable env c) n

/-- The transport flushes until every queued frame has been offered to it. -/
def drain (env : collaborators) (c : Connection) : Connection :=
  flush env c c.writeQueue.length

/-- Concatenation of byte strings, in order. -/
def concat_bytes : List (List Nat) → List Nat
  | [] => []
  | b :: bs => b ++ concat_bytes bs

/-- The payload of a frame if it is an OUTPUT frame, nothing otherwise. -/
def output_part : List Nat → List Nat
  | [] => []
  | tag :: payload => if tag = OUTPUT then payload else []

/-- The concatenation of the payloads of the OUTPUT frames among `frames`. -/
def output_payload : List (List Nat) → List Nat
  | [] => []
  | f :: fs => output_part f ++ output_payload fs

/-- The OUTPUT bytes a connection has been handed so far: those on the socket
followed by those still queued. -/
def handed_over (c : Connection) : List Nat :=
  output_payload c.pss.wsi ++ output_payload c.writeQueue

/-! ## The server and its connections -/

/-- Modelled from the spec: the server state of §3 at startup (the startup code
is not among the sources): no client yet, the policy flags as configured, and
`once` mode capping the server to exactly one client. -/
def server_new (max_clients : Nat) (once exit_no_conn check_origin writable url_arg : Bool) :
    server :=
  { client_count := 0,
    prefs_json := "",
    credential := none,
    auth_header := none,
    index := none,
    command := "",
    argv := [],
    argc := 0,
    cwd := none,
    sig_code := 0,
    sig_name := "",
    url_arg := url_arg,
    writable := writable,
    check_origin := check_origin,
    max_clients := if once then 1 else (max_clients : Int),
    once := once,
    exit_no_conn := exit_no_conn,
    socket_path := "",
    terminal_type := "",
    loop := () }

/-- Modelled from the spec: the process-wide state (§3, §5; the registry is not
among the sources): the `server` record and the attached connections. -/
structure system where
  srv : server
  conns : List Connection
deriving DecidableEq, Repr

/-- The system at startup: the server as configured, no connection. -/
def system_new (max_clients : Nat) (once exit_no_conn check_origin writable url_arg : Bool) :
    system :=
  { srv := server_new max_clients once exit_no_conn check_origin writable url_arg,
    conns := [] }

/-- The system after a connection attempt, and the error the attempt was
rejected with, if any. -/
structure attach_result where
  sys : system
  error : Option ErrorKind
deriving DecidableEq, Repr

/-- Modelled from the spec: a connection attempt (§3 invariants, §4.3 attach,
§8; the registry is not among the sources).  At capacity the attempt is rejected
with `CapacityExceeded`; otherwise the connection is attached to its pty process
and counted. -/
def attach (s : system) (c : Connection) (p : pty_process) : attach_result :=
  if s.srv.max_clients ≤ s.srv.client_count then
    { sys := s, error := some ErrorKind.CapacityExceeded }
  else
    { sys :=
        { srv := { s.srv with client_count := s.srv.client_count + 1 },
          conns := s.conns ++ [{ c with pss := { c.pss with process := some p } }] },
      error := none }

/-- Modelled from the spec: Closing → Closed of the connection at position `i`
(§4.3; the registry is not among the sources): it is released and no longer
counted. -/
def detach (s : system) (i : Nat) : system :=
  if i < s.conns.length then
    { srv := { s.srv with client_count := s.srv.client_count - 1 },
      conns := s.conns.eraseIdx i }
  else s

/-- The connection at position `i` replaced by the result of `f`. -/
def update_conn (s : system) (i : Nat) (f : Connection → Connection) : system :=
  match s.conns.get? i with
  | none => s
  | some c => { s with conns := s.conns.set i (f c) }

/-- Modelled from the spec: everything that can happen to the system (§4.3, §5;
the event loop is not among the sources). -/
inductive sys_event where
  | attach (c : Connection) (p : pty_process)
  | detach (i : Nat)
  | receive (i : Nat) (msg : List Nat)
  | pty_output (i : Nat) (chunk : List Nat)
  | writable (i : Nat)
deriving DecidableEq, Repr

/-- One event of the system.  A message that closes its connection releases it. -/
def sys_step (env : collaborators) (s : system) : sys_event → system
  | sys_event.attach c p => (attach s c p).sys
  | sys_event.detach i => detach s i
  | sys_event.receive i msg =>
    match s.conns.get? i with
    | none => s
    | some c =>
      match (handle_message env s.srv c msg).close with
      | none => update_conn s i fun _ => (handle_message env s.srv c msg).conn
      | some _ => detach s i
  | sys_event.pty_output i chunk => update_conn s i fun c => on_pty_output env c chunk
  | sys_event.writable i => update_conn s i fun c => on_writable env c

/-- The states the system can be in: the startup state of some configuration,
and every state one event after a reachable state. -/
inductive Reachable (env : collaborators) : system → Prop where
  | start (max_clients : Nat) (once exit_no_conn check_origin writable url_arg : Bool) :
      Reachable env (system_new max_clients once exit_no_conn check_origin writable url_arg)
  | step (s : system) (e : sys_event) : Reachable env s → Reachable env (sys_step env s e)

/-! ## Sample values -/

/-- A collaborator set with libwebsockets-style close codes, a resize reader that
accepts nothing, and water marks 8 and 4. -/
def sample_env : collaborators :=
  { close_status := fun k =>
      match k with
      | ErrorKind.AuthFailure => 1008
      | ErrorKind.CapacityExceeded => 1013
      | ErrorKind.ProtocolViolation => 1002
      | ErrorKind.SpawnFailure => 1011
      | ErrorKind.WriteFailure => 1006
      | ErrorKind.ProcessExited => 1000,
    parse_resize := fun _ => none,
    high_water := 8,
    low_water := 4 }

/-- A pty process that has received nothing yet. -/
def sample_process : pty_process :=
  { input := [], columns := 80, rows := 24, exited := false }

/-- A session that has not passed the authentication gate, attached to
`sample_process`. -/
def sample_pss : pss_tty :=
  { initialized := false,
    initial_cmd_index := 0,
    authenticated := false,
    user := "",
    address := "",
    path := "",
    args := [],
    argc := 0,
    wsi := [],
    buffer := [],
    len := 0,
    process := some sample_process,
    pty_buf := [],
    lws_close_status := 0 }

/-- An Active connection with nothing queued. -/
def sample_conn : Connection :=
  { pss := sample_pss, paused := false, inflightBytes := 0, writeQueue := [] }

/-- A server for one client with the sample connection attached. -/
def sample_full_system : system :=
  sys_step sample_env (system_new 1 false false true true false)
    (sys_event.attach sample_conn sample_process)

/-- A `once` server configured for five clients, after one connection attempt. -/
def sample_once_system : system :=
  sys_step sample_env (system_new 5 true false true true false)
    (sys_event.attach sample_conn sample_process)

/-! ## Properties of the tags -/

/-- C1: the client tags have the values of the wire-protocol table: INPUT is
the character '0' (48), RESIZE_TERMINAL is '1' (49), PAUSE is '2' (50), RESUME is
'3' (51) and JSON_DATA is the opening brace (123). -/
theorem client_tag_values :
    (INPUT = '0'.toNat ∧ INPUT = 48) ∧
    (RESIZE_TERMINAL = '1'.toNat ∧ RESIZE_TERMINAL = 49) ∧
    (PAUSE = '2'.toNat ∧ PAUSE = 50) ∧
    (RESUME = '3'.toNat ∧ RESUME = 51) ∧
    (JSON_DATA = '{'.toNat ∧ JSON_DATA = 123) := by
  decide

/-- C2: the server tags have the values given for encoding: OUTPUT is the
character '0' (48), SET_WINDOW_TITLE is '1' (49) and SET_PREFERENCES is '2' (50). -/
theorem server_tag_values :
    (OUTPUT = '0'.toNat ∧ OUTPUT = 48) ∧
    (SET_WINDOW_TITLE = '1'.toNat ∧ SET_WINDOW_TITLE = 49) ∧
    (SET_PREFERENCES = '2'.toNat ∧ SET_PREFERENCES = 50) := by
  decide

/-- C8: within one direction no byte is the tag of two message kinds: the five
client tags are pairwise distinct and so are the three server tags, so every byte
occurs at most once in each tag list. -/
theorem tags_pairwise_distinct :
    client_tags.Pairwise (fun a b => a ≠ b) ∧
    server_tags.Pairwise (fun a b => a ≠ b) ∧
    (∀ b : Nat, client_tags.count b ≤ 1) ∧
    (∀ b : Nat, server_tags.count b ≤ 1) := by
  have hc : client_tags.Nodup := by decide
  have hs : server_tags.Nodup := by decide
  exact ⟨hc, hs, List.nodup_iff_count_le_one.mp hc, List.nodup_iff_count_le_one.mp hs⟩

/-- C9: every tag constant of the protocol is a single byte: its value lies in
0..127, it is unchanged by conversion to an 8-bit char, and the character with
that code takes one byte in UTF-8. -/
theorem tags_are_single_bytes :
    single_byte INPUT ∧ single_byte RESIZE_TERMINAL ∧ single_byte PAUSE ∧
    single_byte RESUME ∧ single_byte JSON_DATA ∧ single_byte OUTPUT ∧
    single_byte SET_WINDOW_TITLE ∧ single_byte SET_PREFERENCES := by
  simp only [single_byte]
  decide

/-- C10: a tag does not identify a message without its direction: OUTPUT equals
INPUT, SET_WINDOW_TITLE equals RESIZE_TERMINAL and SET_PREFERENCES equals PAUSE,
so every server tag is also a client tag, while RESUME and JSON_DATA equal no
server tag. -/
theorem tags_overlap_across_directions :
    OUTPUT = INPUT ∧ SET_WINDOW_TITLE = RESIZE_TERMINAL ∧ SET_PREFERENCES = PAUSE ∧
    server_tags.all (fun t => client_tags.contains t) = true ∧
    server_tags.all (fun t => t != RESUME && t != JSON_DATA) = true ∧
    (RESUME ≠ OUTPUT ∧ RESUME ≠ SET_WINDOW_TITLE ∧ RESUME ≠ SET_PREFERENCES) ∧
    (JSON_DATA ≠ OUTPUT ∧ JSON_DATA ≠ SET_WINDOW_TITLE ∧ JSON_DATA ≠ SET_PREFERENCES) := by
  decide

/-! ## Handling of client messages -/

/-- A message whose tag is none of the client tags does not decode. -/
theorem decode_unknown_tag (env : collaborators) (tag : Nat) (payload : List Nat)
    (h : tag ∉ client_tags) : decode env (tag :: payload) = none := by
  simp only [client_tags, List.mem_cons, List.mem_singleton, not_or, List.mem_nil_iff,
    or_false] at h
  obtain ⟨h0, h1, h2, h3, h4⟩ := h
  simp [decode, h0, h1, h2, h3, h4]

/-- Closing with an error leaves the pty process of the connection untouched. -/
theorem close_with_process (env : collaborators) (c : Connection) (kind : ErrorKind) :
    (close_with env c kind).conn.pss.process = c.pss.process := rfl

/-- C3: a client message whose first byte is none of the five client tags is an
error: the connection is closed with the protocol-violation status and nothing
is written to the pty. -/
theorem unknown_tag_closes_with_protocol_violation (env : collaborators) (srv : server)
    (c : Connection) (tag : Nat) (payload : List Nat) (h : tag ∉ client_tags) :
    (handle_message env srv c (tag :: payload)).close = some ErrorKind.ProtocolViolation ∧
    (handle_message env srv c (tag :: payload)).conn.pss.lws_close_status =
      env.close_status ErrorKind.ProtocolViolation ∧
    (handle_message env srv c (tag :: payload)).conn.pss.process = c.pss.process ∧
    pty_input (handle_message env srv c (tag :: payload)).conn = pty_input c := by
  have hd := decode_unknown_tag env tag payload h
  simp [handle_message, hd, close_with, pty_input]

/-- C3 at a concrete input: the message "9x" on the sample connection. -/
theorem unknown_tag_closes_with_protocol_violation_witness :
    (57 ∉ client_tags) ∧
    (handle_message sample_env (server_new 4 false false true true false) sample_conn
        [57, 120]).close = some ErrorKind.ProtocolViolation ∧
    (handle_message sample_env (server_new 4 false false true true false) sample_conn
        [57, 120]).conn.pss.lws_close_status = 1002 ∧
    pty_input (handle_message sample_env (server_new 4 false false true true false)
        sample_conn [57, 120]).conn = [] :=
  have h := unknown_tag_closes_with_protocol_violation sample_env
    (server_new 4 false false true true false) sample_conn 57 [120] (by decide)
  ⟨by decide, h.1, h.2.1, h.2.2.2⟩

/-- C4: on a connection whose `authenticated` flag is false, an Input message
(tag '0', any payload) closes the connection with the auth-failure status and no
byte of the payload reaches the pty process. -/
theorem unauthenticated_input_closes_with_auth_failure (env : collaborators) (srv : server)
    (c : Connection) (payload : List Nat) (h : c.pss.authenticated = false) :
    (handle_message env srv c (INPUT :: payload)).close = some ErrorKind.AuthFailure ∧
    (handle_message env srv c (INPUT :: payload)).conn.pss.lws_close_status =
      env.close_status ErrorKind.AuthFailure ∧
    (handle_message env srv c (INPUT :: payload)).conn.pss.process = c.pss.process ∧
    pty_input (handle_message env srv c (INPUT :: payload)).conn = pty_input c := by
  simp [handle_message, decode, h, close_with, pty_input]

/-- C4 at a concrete input: the unauthenticated sample connection receives tag
'0' with payload "ls" and a newline. -/
theorem unauthenticated_input_closes_with_auth_failure_witness :
    sample_conn.pss.authenticated = false ∧
    (handle_message sample_env (server_new 4 false false true true false) sample_conn
        (INPUT :: [108, 115, 10])).close = some ErrorKind.AuthFailure ∧
    (handle_message sample_env (server_new 4 false false true true false) sample_conn
        (INPUT :: [108, 115, 10])).conn.pss.lws_close_status = 1008 ∧
    pty_input (handle_message sample_env (server_new 4 false false true true false)
        sample_conn (INPUT :: [108, 115, 10])).conn = [] :=
  have h := unauthenticated_input_closes_with_auth_failure sample_env
    (server_new 4 false false true true false) sample_conn [108, 115, 10] rfl
  ⟨rfl, h.1, h.2.1, h.2.2.2⟩

/-! ## Capacity and configuration invariants -/

/-- Replacing a connection does not touch the `server` record. -/
theorem update_conn_srv (s : system) (i : Nat) (f : Connection → Connection) :
    (update_conn s i f).srv = s.srv := by
  unfold update_conn
  split <;> rfl

/-- Releasing a connection changes nothing of the `server` record but the client
count, which does not grow. -/
theorem detach_srv (s : system) (i : Nat) :
    (detach s i).srv.max_clients = s.srv.max_clients ∧
    (detach s i).srv.once = s.srv.once ∧
    (detach s i).srv.client_count ≤ s.srv.client_count := by
  unfold detach
  split
  · refine ⟨rfl, rfl, ?_⟩
    show s.srv.client_count - 1 ≤ s.srv.client_count
    omega
  · exact ⟨rfl, rfl, le_refl _⟩

/-- A connection attempt changes nothing of the `server` record but the client
count, which stays within `max_clients` if it was. -/
theorem attach_srv (s : system) (c : Connection) (p : pty_process) :
    (attach s c p).sys.srv.max_clients = s.srv.max_clients ∧
    (attach s c p).sys.srv.once = s.srv.once ∧
    (s.srv.client_count ≤ s.srv.max_clients →
      (attach s c p).sys.srv.client_count ≤ s.srv.max_clients) := by
  unfold attach
  split
  · exact ⟨rfl, rfl, fun h => h⟩
  · rename_i hlt
    refine ⟨rfl, rfl, fun _ => ?_⟩
    show s.srv.client_count + 1 ≤ s.srv.max_clients
    omega

/-- No event changes `max_clients` or `once`, and none takes the client count
above `max_clients`. -/
theorem sys_step_srv (env : collaborators) (s : system) (e : sys_event) :
    (sys_step env s e).srv.max_clients = s.srv.max_clients ∧
    (sys_step env s e).srv.once = s.srv.once ∧
    (s.srv.client_count ≤ s.srv.max_clients →
      (sys_step env s e).srv.client_count ≤ s.srv.max_clients) := by
  cases e with
  | attach c p => exact attach_srv s c p
  | detach i =>
    have h := detach_srv s i
    exact ⟨h.1, h.2.1, fun hle => le_trans h.2.2 hle⟩
  | receive i msg =>
    have h := detach_srv s i
    simp only [sys_step]
    split
    · exact ⟨rfl, rfl, fun hle => hle⟩
    · split
      · rw [update_conn_srv]
        exact ⟨rfl, rfl, fun hle => hle⟩
      · exact ⟨h.1, h.2.1, fun hle => le_trans h.2.2 hle⟩
  | pty_output i chunk =>
    show (update_conn s i _).srv.max_clients = _ ∧ (update_conn s i _).srv.once = _ ∧
      (_ → (update_conn s i _).srv.client_count ≤ _)
    rw [update_conn_srv]
    exact ⟨rfl, rfl, fun hle => hle⟩
  | writable i =>
    show (update_conn s i _).srv.max_clients = _ ∧ (update_conn s i _).srv.once = _ ∧
      (_ → (update_conn s i _).srv.client_count ≤ _)
    rw [update_conn_srv]
    exact ⟨rfl, rfl, fun hle => hle⟩

/-- In every reachable state the client count is within `max_clients`, and
`once` implies that `max_clients` is 1. -/
theorem reachable_invariants (env : collaborators) (s : system) (h : Reachable env s) :
    s.srv.client_count ≤ s.srv.max_clients ∧ (s.srv.once = true → s.srv.max_clients = 1) := by
  induction h with
  | start max_clients once exit_no_conn check_origin writable url_arg =>
    constructor
    · show (0 : Int) ≤ if once = true then 1 else (max_clients : Int)
      split <;> omega
    · intro ho
      have ho1 : once = true := ho
      show (if once = true then 1 else (max_clients : Int)) = 1
      simp [ho1]
  | step s e _ ih =>
    have hs := sys_step_srv env s e
    constructor
    · rw [hs.1]
      exact hs.2.2 ih.1
    · intro ho
      rw [hs.1]
      exact ih.2 (by rw [← hs.2.1]; exact ho)

/-- C5: when the client count has reached `max_clients`, a further connection
attempt is rejected with CapacityExceeded and leaves the client count and every
existing connection unchanged; so the client count is at most `max_clients` in
every reachable server state. -/
theorem capacity_is_enforced (env : collaborators) :
    (∀ (s : system) (c : Connection) (p : pty_process),
      s.srv.max_clients ≤ s.srv.client_count →
        (attach s c p).error = some ErrorKind.CapacityExceeded ∧
        (attach s c p).sys.srv.client_count = s.srv.client_count ∧
        (attach s c p).sys.conns = s.conns ∧
        (attach s c p).sys = s) ∧
    (∀ s : system, Reachable env s → s.srv.client_count ≤ s.srv.max_clients) := by
  constructor
  · intro s c p h
    simp [attach, h]
  · intro s h
    exact (reachable_invariants env s h).1

/-- C5 at a concrete input: a full server for one client rejects the next
attempt, and its state is reachable. -/
theorem capacity_is_enforced_witness :
    sample_full_system.srv.max_clients ≤ sample_full_system.srv.client_count ∧
    (attach sample_full_system sample_conn sample_process).error =
      some ErrorKind.CapacityExceeded ∧
    (attach sample_full_system sample_conn sample_process).sys = sample_full_system ∧
    Reachable sample_env sample_full_system ∧
    sample_full_system.srv.client_count ≤ sample_full_system.srv.max_clients :=
  have hfull : sample_full_system.srv.max_clients ≤ sample_full_system.srv.client_count := by
    decide
  have hreach : Reachable sample_env sample_full_system :=
    Reachable.step _ _ (Reachable.start 1 false false true true false)
  have h := (capacity_is_enforced sample_env).1 sample_full_system sample_conn sample_process
    hfull
  ⟨hfull, h.1, h.2.2.2, hreach, (capacity_is_enforced sample_env).2 sample_full_system hreach⟩

/-- C7: in every server state the system can reach, `once` implies that
`max_clients` equals 1. -/
theorem once_caps_max_clients (env : collaborators) (s : system) (h : Reachable env s) :
    s.srv.once = true → s.srv.max_clients = 1 :=
  (reachable_invariants env s h).2

/-- C7 at a concrete input: a `once` server configured for five clients. -/
theorem once_caps_max_clients_witness :
    Reachable sample_env sample_once_system ∧ sample_once_system.srv.once = true ∧
    sample_once_system.srv.max_clients = 1 :=
  have hreach : Reachable sample_env sample_once_system :=
    Reachable.step _ _ (Reachable.start 5 true false true true false)
  ⟨hreach, by decide, once_caps_max_clients sample_env sample_once_system hreach (by decide)⟩

/-! ## Delivery of pty output -/

/-- The OUTPUT payload of two frame lists in a row is the two payloads in a row. -/
theorem output_payload_append (a b : List (List Nat)) :
    output_payload (a ++ b) = output_payload a ++ output_payload b := by
  induction a with
  | nil => rfl
  | cons f fs ih => simp [output_payload, ih]

/-- The frame made for a chunk is an OUTPUT frame carrying exactly the chunk. -/
theorem output_payload_encode (chunk : List Nat) :
    output_payload [encode (ServerMessage.Output chunk)] = chunk := by
  simp [output_payload, output_part, encode]

/-- One event on a connection that is not Paused: a chunk extends the bytes
handed over by itself, a flush leaves them as they are. -/
theorem io_step_handed_over (env : collaborators) (c : Connection) (e : io_event)
    (h : c.paused = false) :
    handed_over (io_step env c e) = handed_over c ++ concat_bytes (chunks_of [e]) := by
  cases e with
  | chunk bytes =>
    simp [io_step, on_pty_output, h, accept_chunk, handed_over, output_payload_append,
      output_payload_encode, chunks_of, concat_bytes]
  | writable =>
    simp only [io_step, on_writable, chunks_of, concat_bytes, List.append_nil]
    cases hq : c.writeQueue with
    | nil => simp
    | cons frame queue =>
      simp [h, handed_over, hq, output_payload_append, output_payload]

/-- The chunks of two event lists in a row. -/
theorem chunks_of_cons (e : io_event) (es : List io_event) :
    concat_bytes (chunks_of (e :: es)) =
      concat_bytes (chunks_of [e]) ++ concat_bytes (chunks_of es) := by
  cases e <;> simp [chunks_of, concat_bytes]

/-- While the connection is never Paused, the bytes handed over grow by exactly
the chunks produced, in order. -/
theorem io_run_handed_over (env : collaborators) (evs : List io_event) :
    ∀ c : Connection, never_paused env c evs →
      handed_over (io_run env c evs) = handed_over c ++ concat_bytes (chunks_of evs) ∧
      (io_run env c evs).paused = false := by
  induction evs with
  | nil =>
    intro c h
    exact ⟨by simp [io_run, chunks_of, concat_bytes], h⟩
  | cons e es ih =>
    intro c h
    obtain ⟨h0, hrest⟩ := h
    have hstep := io_step_handed_over env c e h0
    have hih := ih (io_step env c e) hrest
    refine ⟨?_, hih.2⟩
    show handed_over (io_run env (io_step env c e) es) = _
    rw [hih.1, hstep, List.append_assoc, ← chunks_of_cons]

/-- Flushing a connection that is not Paused at least as often as it has queued
frames puts every queued frame on the socket, in order. -/
theorem flush_delivers (env : collaborators) (n : Nat) :
    ∀ c : Connection, c.paused = false → c.writeQueue.length ≤ n →
      (flush env c n).pss.wsi = c.pss.wsi ++ c.writeQueue ∧
      (flush env c n).writeQueue = [] := by
  induction n with
  | zero =>
    intro c _ hlen
    have hq : c.writeQueue = [] := List.length_eq_zero.mp (Nat.le_zero.mp hlen)
    simp [flush, hq]
  | succ n ih =>
    intro c hp hlen
    cases hq : c.writeQueue with
    | nil =>
      have hc : on_writable env c = c := by simp [on_writable, hq]
      have h := ih c hp (by simp [hq])
      simp only [flush, hc]
      rw [hq] at h
      exact h
    | cons frame queue =>
      have hc : on_writable env c =
          { c with
            pss := { c.pss with wsi := c.pss.wsi ++ [frame] },
            writeQueue := queue,
            inflightBytes := c.inflightBytes - (frame.length - 1) } := by
        simp [on_writable, hq, hp]
      have hlen1 : queue.length ≤ n := by
        rw [hq] at hlen
        simpa using hlen
      have h := ih (on_writable env c) (by rw [hc]; exact hp) (by rw [hc]; exact hlen1)
      simp only [flush]
      rw [hc] at h ⊢
      simpa using h

/-- C6: for every sequence of chunks produced by the pty, interleaved in any way
with flushes of the transport, on a connection that is never Paused: once the
write queue is drained, the payloads of the OUTPUT frames on the socket are what
the connection had been handed before, followed by the chunks in order, nothing
lost and nothing duplicated; no frame is left queued. -/
theorem output_is_delivered_in_order (env : collaborators) (c : Connection)
    (evs : List io_event) (h : never_paused env c evs) :
    output_payload (drain env (io_run env c evs)).pss.wsi =
      output_payload c.pss.wsi ++ output_payload c.writeQueue ++
        concat_bytes (chunks_of evs) ∧
    (drain env (io_run env c evs)).writeQueue = [] := by
  have hrun := io_run_handed_over env evs c h
  have hfl := flush_delivers env (io_run env c evs).writeQueue.length (io_run env c evs)
    hrun.2 (le_refl _)
  refine ⟨?_, hfl.2⟩
  show output_payload (flush env (io_run env c evs) (io_run env c evs).writeQueue.length).pss.wsi
    = _
  rw [hfl.1, output_payload_append]
  exact hrun.1

/-- C6 at a concrete input: the chunks "hi", "!" and a newline, with one flush in
between, reach a fresh connection as the bytes of "hi!" and the newline. -/
theorem output_is_delivered_in_order_witness :
    never_paused sample_env sample_conn
      [io_event.chunk [104, 105], io_event.writable, io_event.chunk [33],
        io_event.chunk [10]] ∧
    output_payload (drain sample_env (io_run sample_env sample_conn
      [io_event.chunk [104, 105], io_event.writable, io_event.chunk [33],
        io_event.chunk [10]])).pss.wsi = [104, 105, 33, 10] :=
  have hnp : never_paused sample_env sample_conn
      [io_event.chunk [104, 105], io_event.writable, io_event.chunk [33],
        io_event.chunk [10]] := by
    simp [never_paused, io_step, on_pty_output, on_writable, accept_chunk, sample_conn, sample_env,
      encode]
  ⟨hnp, (output_is_delivered_in_order sample_env sample_conn _ hnp).1⟩

end GitTerm
